import Mathlib

/-!
Verification of the keyoscacquire acquisition and waveform-decoding engine.

The Python sources are shallowly embedded:
* instrument samples and preamble fields are rationals (the Python code works
  on parsed floats; the claims are about the arithmetic, which is exact here);
* each VISA command string written to or queried from the instrument becomes a
  constructor of an event type, carrying the parameters interpolated into the
  f-string of the source (`Ev.render` reproduces the exact command text);
* Python code that can raise returns `Option` or `Except`.
-/

namespace KeyOsc

/-! ## Waveform decoder, binary path
Model of `keyoscacquire/dataprocessing.py`, `_process_data_binary`.
A preamble is the list of its comma-separated fields, already parsed to
rationals; `pField ps i k` is `float(preambles[i].split(',')[k])` (with
default 0, only used under the validity check below). -/

/-- Field `k` of preamble `i`: `preambles[i].split(',')[k]` parsed as a number. -/
def pField (preambles : List (List ℚ)) (i k : ℕ) : ℚ :=
  (preambles.getD i []).getD k 0

/-- Sample count `int(float(preamble[2]))` of the first preamble
(truncation agrees with `Int.floor` on the nonnegative counts admitted by
`binaryOk`). -/
def numSamples (preambles : List (List ℚ)) : ℕ :=
  (⌊pField preambles 0 2⌋).toNat

/-- The conditions under which `_process_data_binary` runs without raising:
the access `preambles[0]` succeeds, the first preamble has the x-fields at
indices 2,4,5,6, `np.empty` accepts the sample count (nonnegative), every
channel `i < len(raw)` has a preamble with the y-fields at indices 7,8,9,
and the numpy row assignment `y[i,:] = ...` gets data of matching length.
(The numpy length-1 broadcast special case is not exercised by any claim and
is treated as a mismatch.) -/
def binaryOk (raw preambles : List (List ℚ)) : Prop :=
  preambles ≠ [] ∧
  7 ≤ (preambles.getD 0 []).length ∧
  0 ≤ pField preambles 0 2 ∧
  raw.length ≤ preambles.length ∧
  (∀ p ∈ preambles.take raw.length, 10 ≤ p.length) ∧
  (∀ d ∈ raw, d.length = numSamples preambles)

instance (raw preambles : List (List ℚ)) : Decidable (binaryOk raw preambles) := by
  unfold binaryOk; infer_instance

/-- Time axis `np.array([(np.arange(num_samples)-xRef)*xIncr + xOrig]).T`:
a column vector, one singleton row per sample, from the first preamble's
fields 4 (x-increment), 5 (x-origin), 6 (x-reference). -/
def timeAxisBinary (preambles : List (List ℚ)) : List (List ℚ) :=
  (List.range (numSamples preambles)).map fun (j : ℕ) =>
    [((j : ℚ) - pField preambles 0 6) * pField preambles 0 4 + pField preambles 0 5]

/-- Voltages of channel `i`: `(data - yRef)*yIncr + yOrig` with the channel's
own preamble fields 9 (y-reference), 7 (y-increment), 8 (y-origin). -/
def chanVolts (raw preambles : List (List ℚ)) (i : ℕ) : List ℚ :=
  (raw.getD i []).map fun d =>
    (d - pField preambles i 9) * pField preambles i 7 + pField preambles i 8

/-- The matrix `y.T`: row `j`, column `i` is sample `j` of channel `i`
(the code fills row `i` of `y` per channel and transposes at the end). -/
def yMatrixBinary (raw preambles : List (List ℚ)) : List (List ℚ) :=
  (List.range (numSamples preambles)).map fun j =>
    (List.range raw.length).map fun i => (chanVolts raw preambles i).getD j 0

/-- Model of `_process_data_binary(raw, preambles)`; `none` is the raised
exception (IndexError on a missing preamble or field, numpy error on a bad
sample count or length mismatch). -/
def processDataBinary (raw preambles : List (List ℚ)) :
    Option (List (List ℚ) × List (List ℚ)) :=
  if binaryOk raw preambles then
    some (timeAxisBinary preambles, yMatrixBinary raw preambles)
  else none

/-! ## Waveform decoder, ASCII paths
Two revisions exist in the repository.  `raw` is the list of per-channel
sample lists after the model-series-dependent block-header stripping and
float parsing of the comma-separated text (pure string plumbing). -/

/-- Model of `np.linspace(a, b, n)` (endpoint included); for `n = 1` the
rational division by zero yields `a`, as numpy returns `[a]`. -/
def linspace (a b : ℚ) (n : ℕ) : List ℚ :=
  (List.range n).map fun (j : ℕ) => a + (b - a) * (j : ℚ) / ((n : ℚ) - 1)

/-- Number of rows of `np.transpose(np.array(y))`, i.e. the common length of
the per-channel sample lists (`np.shape(y)[0]` in the source). -/
def asciiNumSamples (raw : List (List ℚ)) : ℕ :=
  (raw.getD 0 []).length

/-- The transposed voltage matrix `np.transpose(np.array(y))` with `n` rows:
row `j` holds sample `j` of every channel, in capture order. -/
def transposeRows (raw : List (List ℚ)) (n : ℕ) : List (List ℚ) :=
  (List.range n).map fun j => raw.map fun data => data.getD j 0

/-- Model of the legacy `process_data_ascii(raw, measurement_time)`
(`keyoscacquire/keyoscacquire/oscacq.py`): the time axis is
`np.linspace(0, measurement_time, num_samples)` made vertical, where
`measurement_time` is the separately queried total duration. -/
def processDataAsciiLegacy (raw : List (List ℚ)) (measurementTime : ℚ) :
    List (List ℚ) × List (List ℚ) :=
  let n := asciiNumSamples raw
  ((linspace 0 measurementTime n).map fun t => [t], transposeRows raw n)

/-- The conditions under which the current `_process_data_ascii` parses its
single shared preamble without raising. -/
def asciiOk (preamble : List ℚ) : Prop :=
  7 ≤ preamble.length ∧ 0 ≤ preamble.getD 2 0

instance (preamble : List ℚ) : Decidable (asciiOk preamble) := by
  unfold asciiOk; infer_instance

/-- Model of the current `_process_data_ascii(raw, (preamble, model_series))`
(`keyoscacquire/dataprocessing.py`): the time axis is computed from the
preamble fields 2,4,5,6 exactly like the binary path (the model series picks
the string-stripping rule only, which the parsed `raw` has already absorbed). -/
def processDataAsciiCurrent (raw : List (List ℚ)) (preamble : List ℚ)
    (modelSeries : String) : Option (List (List ℚ) × List (List ℚ)) :=
  if asciiOk preamble then
    let n := (⌊preamble.getD 2 0⌋).toNat
    some ((List.range n).map fun (j : ℕ) =>
            [((j : ℚ) - preamble.getD 6 0) * preamble.getD 4 0 + preamble.getD 5 0],
          transposeRows raw (asciiNumSamples raw))
  else none

/-! ## VISA interaction events
Each constructor corresponds to one `self.write(...)` /`self.query(...)` site
in `keyoscacquire/oscilloscope.py`; `Ev.render` reproduces the exact command
string of the source f-string. -/

/-- One VISA interaction of the `Oscilloscope` methods. -/
inductive Ev where
  /-- `self.query(":WAVeform:FORMat?")` (the `wav_format` getter). -/
  | queryFormat
  /-- `self.query(":OPERegister:CONDition?")` (inside `is_running`). -/
  | queryOpReg
  /-- `self.query(":ACQuire:TYPE?")` (the `acq_type` getter). -/
  | queryAcqType
  /-- `self.query(":WAVeform:PREamble?")`. -/
  | queryPreamble
  /-- `self.query(":WAVeform:DATA?")` or `query_binary_values(":WAVeform:DATA?", ...)`. -/
  | queryData
  /-- `self.write(":DIGitize " + ", ".join(self._sources))`. -/
  | writeDigitize (sourcesstring : String)
  /-- `self.write(f":WAVeform:SOURce -source-")`. -/
  | writeWavSource (source : String)
  /-- `self.write(":RUN")` (the `run` method). -/
  | writeRun
  /-- `self.write(":STOP")` (the `stop` method). -/
  | writeStop
  /-- `self.write(f":ACQuire:TYPE -acqtype-")`. -/
  | writeAcqType (t : String)
  /-- `self.write(f":ACQuire:COUNt -num-")` (the `num_averages` setter). -/
  | writeAcqCount (n : ℤ)
  /-- `self.write(f":WAVeform:POINts:MODE -pmode-")` (the `p_mode` setter). -/
  | writePointsMode (m : String)
  /-- `self.write(":WAVeform:POINts MAXimum")`. -/
  | writePointsMax
  /-- `self.write(f":WAVeform:POINts -numpoints-")`. -/
  | writePoints (n : ℤ)
  /-- `self.write(f":ACQuire:POINts -numpoints-")` (9000-series branch). -/
  | writeAcqPoints (n : ℤ)
deriving DecidableEq

/-- The exact command text of each event, as interpolated in the source. -/
def Ev.render : Ev → String
  | .queryFormat => ":WAVeform:FORMat?"
  | .queryOpReg => ":OPERegister:CONDition?"
  | .queryAcqType => ":ACQuire:TYPE?"
  | .queryPreamble => ":WAVeform:PREamble?"
  | .queryData => ":WAVeform:DATA?"
  | .writeDigitize s => ":DIGitize " ++ s
  | .writeWavSource s => ":WAVeform:SOURce " ++ s
  | .writeRun => ":RUN"
  | .writeStop => ":STOP"
  | .writeAcqType t => ":ACQuire:TYPE " ++ t
  | .writeAcqCount n => ":ACQuire:COUNt " ++ toString n
  | .writePointsMode m => ":WAVeform:POINts:MODE " ++ m
  | .writePointsMax => ":WAVeform:POINts MAXimum"
  | .writePoints n => ":WAVeform:POINts " ++ toString n
  | .writeAcqPoints n => ":ACQuire:POINts " ++ toString n

/-- Discriminate the outcome of a fallible method
(`True`/`False` booleanized for decidability in witnesses). -/
def isErr : Except String Unit → Bool
  | .error _ => true
  | .ok _ => false

/-! ## Acquisition configurator
Models of the `Oscilloscope` property setters. -/

/-- Model of `is_running`: the third bit of the queried operation-status
register value, computed as in the source by `(reg & 8) == 8`. -/
def isRunningReg (reg : ℕ) : Bool :=
  (reg &&& 8) == 8

/-- Python `str.upper()` (structural model; core `String.toUpper` does not
reduce in the kernel). -/
def pyUpper (s : String) : String := ⟨s.data.map Char.toUpper⟩

/-- Python `str.lower()` (structural model). -/
def pyLower (s : String) : String := ⟨s.data.map Char.toLower⟩

/-- Accumulator for `pyInt`: the value of a non-empty digit run. -/
def digitsVal : List Char → ℕ → Option ℕ
  | [], acc => some acc
  | c :: cs, acc =>
    if c.isDigit then digitsVal cs (acc * 10 + (c.toNat - ('0').toNat)) else none

/-- Python `int(str)`: optional sign followed by at least one digit, `none`
for the `ValueError` case.  (The whitespace and underscore lenience of
`int` is not exercised by the setters' tokens.) -/
def pyInt (s : String) : Option ℤ :=
  match s.data with
  | '-' :: rest => if rest = [] then none else (digitsVal rest 0).map fun n => -(n : ℤ)
  | '+' :: rest => if rest = [] then none else (digitsVal rest 0).map fun n => (n : ℤ)
  | l => if l = [] then none else (digitsVal l 0).map fun n => (n : ℤ)

/-- Model of the `num_averages` setter: raises `ValueError` unless
`2 <= num <= 65536`, otherwise writes the count unchanged. -/
def numAveragesSet (num : ℤ) : List Ev × Except String Unit :=
  if 2 ≤ num ∧ num ≤ 65536 then
    ([Ev.writeAcqCount num], Except.ok ())
  else
    ([], Except.error ("The number of averages " ++ toString num ++ " is out of range."))

/-- Model of the `acq_type` setter.  The `:ACQuire:TYPE` write happens first;
for an `AVER<m>` token the suffix is converted with `int(...)` inside a
`try`, and in the `except ValueError` branch the source builds a `ValueError`
but never raises it — so a malformed (or out-of-range) suffix is swallowed
and the method returns normally.  Python `int(str)` is modelled by
`String.toInt?` (the whitespace/underscore lenience of `int` is not
exercised by any claim). -/
def acqTypeSet (aType : String) : List Ev × Except String Unit :=
  let acq := pyUpper (aType.take 4)
  let evs := [Ev.writeAcqType acq]
  if acq = "AVER" ∧ 4 < aType.length ∧ pyLower (aType.drop 4) ≠ "age" then
    match pyInt (aType.drop 4) with
    | some m =>
      match numAveragesSet m with
      | (evs2, Except.ok _) => (evs ++ evs2, Except.ok ())
      | (_, Except.error _) => (evs, Except.ok ())
    | none => (evs, Except.ok ())
  else (evs, Except.ok ())

/-- The effective points mode of the `p_mode` setter: overridden to
`"NORM"` when a non-`NORM` mode is requested while the acquisition type
(queried from the device) is `"AVER"`; the override is logged, not raised. -/
def pModeEffective (requested acqType : String) : String :=
  if requested.take 4 ≠ "NORM" ∧ acqType = "AVER" then "NORM" else requested

/-- Model of the `p_mode` setter.  Python's `and` short-circuits, so the
`acq_type` query is only issued when the requested mode is not `NORM`. -/
def pModeSet (requested acqType : String) : List Ev :=
  (if requested.take 4 = "NORM" then [] else [Ev.queryAcqType]) ++
  [Ev.writePointsMode (pModeEffective requested acqType)]

/-- Model of the `num_points` setter.  `0` is the MAXimum sentinel; a
positive count is written (9000 series uses `:ACQuire:POINts`, other series
stop the scope, possibly force `RAW` points mode first, and re-run); for a
negative count the source builds a `ValueError` but never raises it, so the
method returns normally having issued no command at all. -/
def numPointsSet (numPoints : ℤ) (modelSeries acqType : String) :
    List Ev × Except String Unit :=
  if numPoints = 0 then ([Ev.writePointsMax], Except.ok ())
  else if 0 < numPoints then
    if modelSeries = "9000" then ([Ev.writeAcqPoints numPoints], Except.ok ())
    else
      ((if 7680 < numPoints then pModeSet "RAW" acqType else []) ++
        [Ev.writeStop, Ev.writePoints numPoints, Ev.writeRun], Except.ok ())
  else ([], Except.ok ())

/-! ## Channel selector
Model of `set_channels_for_capture`. -/

/-- The `channels` argument of `set_channels_for_capture`: Python `None`,
the `'active'` / `['active']` sentinel, or an explicit list of channel
numbers. -/
inductive ChannelsArg where
  | nullArg
  | activeSentinel
  | explicit (chs : List ℕ)
deriving DecidableEq

/-- The resolved capture channels: the sentinel cases (and the empty list)
resolve to the currently active channels; an explicit non-empty list is kept
exactly as given, never reordered. -/
def resolveChannels (arg : ChannelsArg) (activeChannels : List ℕ) : List ℕ :=
  match arg with
  | .nullArg => activeChannels
  | .activeSentinel => activeChannels
  | .explicit chs => if chs = [] then activeChannels else chs

/-- The source list `[f"CHAN-ch-" for ch in self._capture_channels]`. -/
def sourcesFor (chs : List ℕ) : List String :=
  chs.map fun ch => "CHAN" ++ toString ch

/-! ## Capture-and-read engine
Model of `Oscilloscope.capture_and_read` (with `verbose_acquistion` off, so
no settings-printing queries).  The engine first queries the waveform format
and the run state; if the third operation-register bit is set it issues the
digitize command over all sources; only then does it dispatch on the format,
raising `ValueError` for an unknown family. -/

/-- Per-source events of `_read_binary`: select the source, query the
preamble, query the binary data block. -/
def readBinaryEvents (sources : List String) : List Ev :=
  sources.flatMap fun s => [Ev.writeWavSource s, Ev.queryPreamble, Ev.queryData]

/-- Per-source events of `_read_ascii`: select the source and query the data;
the single shared preamble is queried once at the end. -/
def readAsciiEvents (sources : List String) : List Ev :=
  (sources.flatMap fun s => [Ev.writeWavSource s, Ev.queryData]) ++ [Ev.queryPreamble]

/-- Model of `capture_and_read(set_running)`: the VISA events issued, in
program order, and the outcome (`Except.error` models the `ValueError`
raised on an unknown waveform format). -/
def captureAndRead (wavFormat : String) (reg : ℕ) (sources : List String)
    (setRunning : Bool) : List Ev × Except String Unit :=
  let pre : List Ev :=
    [Ev.queryFormat, Ev.queryOpReg] ++
      (if isRunningReg reg then [Ev.writeDigitize (String.intercalate ", " sources)]
       else [])
  let w := wavFormat.take 3
  if w = "WOR" ∨ w = "BYT" then
    (pre ++ readBinaryEvents sources ++ (if setRunning then [Ev.writeRun] else []),
      Except.ok ())
  else if w = "ASC" then
    (pre ++ readAsciiEvents sources ++ (if setRunning then [Ev.writeRun] else []),
      Except.ok ())
  else
    (pre, Except.error ("Could not capture and read data, waveform format '" ++
      w ++ "' is unknown."))

/-! ## get_trace pipeline (binary format)
`get_trace` runs `capture_and_read` and then hands `self._raw` and
`self._metadata` to `dataprocessing.process_data` unconditionally — there is
no guard for an empty channel list.  The instrument's per-source replies are
abstracted as functions from the source name. -/

/-- Model of the data-bearing part of `get_trace` with a binary waveform
format: resolve the channels, read one preamble and one raw block per
source, and invoke the decoder on whatever was read — even zero channels. -/
def getTraceBinary (arg : ChannelsArg) (activeChannels : List ℕ)
    (devPreamble devData : String → List ℚ) :
    Option (List (List ℚ) × List (List ℚ)) :=
  let sources := sourcesFor (resolveChannels arg activeChannels)
  processDataBinary (sources.map devData) (sources.map devPreamble)

/-! ## Shared helper lemmas -/

theorem getElem?_range_map {α : Type} (f : ℕ → α) {n j : ℕ} (hj : j < n) :
    ((List.range n).map f)[j]? = some (f j) := by
  simp [List.getElem?_map, List.getElem?_range, hj]

theorem getD_of_range_map {α : Type} (f : ℕ → α) {n j : ℕ} (hj : j < n) (d : α) :
    (((List.range n).map f).getD j d) = f j := by
  rw [List.getD_eq_getElem?_getD, getElem?_range_map f hj, Option.getD_some]

theorem getD_map_of_lt {α β : Type} (f : α → β) (l : List α) {j : ℕ}
    (hj : j < l.length) (d : β) (d' : α) :
    (l.map f).getD j d = f (l.getD j d') := by
  rw [List.getD_eq_getElem?_getD, List.getElem?_map, List.getElem?_eq_getElem hj,
    Option.map_some', Option.getD_some, List.getD_eq_getElem l d' hj]

/-- C1: For every binary-format decode with a non-empty list of raw channel
arrays and preambles, where each channel's raw array has length equal to the
sample count at comma-field index 2 of the first preamble: the returned time
axis has shape (sample_count, 1) with entry j equal to
(j - x_reference) * x_increment + x_origin taken from the first preamble's
fields 4, 5, 6; the returned voltage matrix has shape
(sample_count, num_channels) with column i, row j equal to
(raw[i][j] - y_reference_i) * y_increment_i + y_origin_i using channel i's
own preamble fields 9, 7, 8.  In particular, a preamble with y_increment=1,
y_origin=0, y_reference=0 on raw samples [0,1,2] yields voltages [0,1,2]. -/
theorem c1_binary_decode (raw preambles : List (List ℚ))
    (hok : binaryOk raw preambles) (hraw : raw ≠ []) :
    processDataBinary raw preambles =
        some (timeAxisBinary preambles, yMatrixBinary raw preambles) ∧
    (timeAxisBinary preambles).length = numSamples preambles ∧
    (∀ j, j < numSamples preambles →
      (timeAxisBinary preambles)[j]? =
        some [((j : ℚ) - pField preambles 0 6) * pField preambles 0 4
                + pField preambles 0 5]) ∧
    (yMatrixBinary raw preambles).length = numSamples preambles ∧
    (∀ j, j < numSamples preambles →
      ((yMatrixBinary raw preambles).getD j []).length = raw.length ∧
      ∀ i, i < raw.length →
        ((yMatrixBinary raw preambles).getD j []).getD i 0 =
          ((raw.getD i []).getD j 0 - pField preambles i 9) * pField preambles i 7
            + pField preambles i 8) ∧
    processDataBinary [[0, 1, 2]] [[0, 0, 3, 0, 1, 0, 0, 1, 0, 0]] =
      some ([[0], [1], [2]], [[0], [1], [2]]) := by
  refine ⟨by simp [processDataBinary, hok],
    by simp only [timeAxisBinary, List.length_map, List.length_range], ?_,
    by simp only [yMatrixBinary, List.length_map, List.length_range], ?_, ?_⟩
  · intro j hj
    simp only [timeAxisBinary]
    exact getElem?_range_map _ hj
  · intro j hj
    have hrow : (yMatrixBinary raw preambles).getD j [] =
        (List.range raw.length).map fun i => (chanVolts raw preambles i).getD j 0 := by
      simp only [yMatrixBinary]
      exact getD_of_range_map _ hj _
    refine ⟨by rw [hrow]; simp only [List.length_map, List.length_range], ?_⟩
    intro i hi
    rw [hrow, getD_of_range_map _ hi]
    have hmem : raw.getD i [] ∈ raw := by
      rw [List.getD_eq_getElem raw [] hi]
      exact List.getElem_mem hi
    have hlen : (raw.getD i []).length = numSamples preambles :=
      hok.2.2.2.2.2 _ hmem
    have hj' : j < (raw.getD i []).length := hlen ▸ hj
    simp only [chanVolts]
    exact getD_map_of_lt _ _ hj' 0 0
  · have hok2 : binaryOk [[0, 1, 2]] [[0, 0, 3, 0, 1, 0, 0, 1, 0, 0]] := by decide
    have hn : numSamples [[0, 0, 3, 0, 1, 0, 0, 1, 0, 0]] = 3 := by decide
    rw [processDataBinary, if_pos hok2]
    norm_num [timeAxisBinary, yMatrixBinary, chanVolts, pField, hn, List.range_succ]

/-- C1 witness: the theorem instantiated on the synthetic identity-scaling
preamble and raw samples [0,1,2]. -/
theorem c1_binary_decode_witness :
    processDataBinary [[0, 1, 2]] [[0, 0, 3, 0, 1, 0, 0, 1, 0, 0]] =
      some ([[0], [1], [2]], [[0], [1], [2]]) :=
  (c1_binary_decode [[0, 1, 2]] [[0, 0, 3, 0, 1, 0, 0, 1, 0, 0]]
    (by decide) (by decide)).2.2.2.2.2

/-- C2 counterexample: the current ASCII decoder
(`dataprocessing._process_data_ascii`) does not reconstruct the time axis by
linear interpolation from 0: on a preamble with x-origin 5 (fields
[.,.,5,.,1,5,0]) it returns the time axis [[5],[6],[7],[8],[9]], whose first
entry is 5 — while every axis interpolated linearly from 0 to a total
duration starts at 0. -/
theorem c2_ascii_time_counterexample :
    processDataAsciiCurrent [[0, 1, 2, 3, 4]] [4, 0, 5, 0, 1, 5, 0] "1000" =
      some ([[5], [6], [7], [8], [9]], [[0], [1], [2], [3], [4]]) ∧
    (([[(5 : ℚ)], [6], [7], [8], [9]] : List (List ℚ)).getD 0 []) ≠ [0] := by
  constructor
  · have hok : asciiOk [4, 0, 5, 0, 1, 5, 0] := by decide
    rw [processDataAsciiCurrent, if_pos hok]
    have hn : ((⌊([4, 0, 5, 0, 1, 5, 0] : List ℚ).getD 2 0⌋).toNat) = 5 := by decide
    simp only [hn]
    norm_num [transposeRows, asciiNumSamples, List.range_succ]
  · intro h
    have := congrArg (fun l => l.getD 0 0) h
    norm_num at this

/-- C2 (amended): only the legacy ASCII decoder
(`keyoscacquire/keyoscacquire/oscacq.py`, `process_data_ascii`) reconstructs
the time axis by linear interpolation from 0 to the separately-queried total
measurement duration (for duration 1 and 5 samples: [0, 1/4, 1/2, 3/4, 1]);
the current ASCII decoder (`dataprocessing._process_data_ascii`) instead
computes the time axis from the preamble fields 4, 5, 6 exactly as the
binary path does. -/
theorem c2_ascii_time_amended (raw : List (List ℚ)) (dur : ℚ)
    (preamble : List ℚ) (series : String) (hok : asciiOk preamble) :
    (processDataAsciiLegacy raw dur).1.length = asciiNumSamples raw ∧
    (∀ j, j < asciiNumSamples raw →
      (processDataAsciiLegacy raw dur).1[j]? =
        some [dur * (j : ℚ) / ((asciiNumSamples raw : ℚ) - 1)]) ∧
    processDataAsciiLegacy [[9, 9, 9, 9, 9]] 1 =
      ([[0], [1/4], [1/2], [3/4], [1]], [[9], [9], [9], [9], [9]]) ∧
    (∃ t y, processDataAsciiCurrent raw preamble series = some (t, y) ∧
      ∀ j, j < (⌊preamble.getD 2 0⌋).toNat →
        t[j]? = some [((j : ℚ) - preamble.getD 6 0) * preamble.getD 4 0
                        + preamble.getD 5 0]) := by
  refine ⟨by simp [processDataAsciiLegacy, linspace], ?_, ?_, ?_⟩
  · intro j hj
    have : (processDataAsciiLegacy raw dur).1 =
        (List.range (asciiNumSamples raw)).map fun (j : ℕ) =>
          [0 + (dur - 0) * (j : ℚ) / ((asciiNumSamples raw : ℚ) - 1)] := by
      simp [processDataAsciiLegacy, linspace]
    rw [this, getElem?_range_map _ hj]
    norm_num
  · have h5 : asciiNumSamples [[(9 : ℚ), 9, 9, 9, 9]] = 5 := by decide
    simp only [processDataAsciiLegacy, h5]
    norm_num [linspace, transposeRows, List.range_succ]
  · refine ⟨_, _, by rw [processDataAsciiCurrent, if_pos hok], ?_⟩
    intro j hj
    exact getElem?_range_map _ hj

/-- C2 witness: the amended theorem instantiated at duration 1, five
samples, and an x-origin-5 preamble. -/
theorem c2_ascii_time_amended_witness :
    processDataAsciiLegacy [[9, 9, 9, 9, 9]] 1 =
      ([[0], [1/4], [1/2], [3/4], [1]], [[9], [9], [9], [9], [9]]) :=
  (c2_ascii_time_amended [[9, 9, 9, 9, 9]] 1 [4, 0, 5, 0, 1, 5, 0] "1000"
    (by decide)).2.2.1

theorem isRunningReg_eq_testBit (reg : ℕ) : isRunningReg reg = reg.testBit 3 := by
  unfold isRunningReg
  have h8 : (8 : ℕ) = 2 ^ 3 := by norm_num
  rw [h8, Nat.and_two_pow]
  cases h : reg.testBit 3 <;> simp [h]

theorem captureAndRead_fst (w : String) (reg : ℕ) (srcs : List String) (sr : Bool) :
    (captureAndRead w reg srcs sr).1 =
      [Ev.queryFormat, Ev.queryOpReg] ++
        (if isRunningReg reg then [Ev.writeDigitize (String.intercalate ", " srcs)]
         else []) ++
        (if w.take 3 = "WOR" ∨ w.take 3 = "BYT" then
          readBinaryEvents srcs ++ (if sr then [Ev.writeRun] else [])
        else if w.take 3 = "ASC" then
          readAsciiEvents srcs ++ (if sr then [Ev.writeRun] else [])
        else []) := by
  unfold captureAndRead
  split_ifs <;> simp_all

theorem digitize_not_mem_read (srcs : List String) (sr : Bool) (w : String)
    (s : String) :
    Ev.writeDigitize s ∉
      (if w.take 3 = "WOR" ∨ w.take 3 = "BYT" then
        readBinaryEvents srcs ++ (if sr then [Ev.writeRun] else [])
      else if w.take 3 = "ASC" then
        readAsciiEvents srcs ++ (if sr then [Ev.writeRun] else [])
      else ([] : List Ev)) := by
  split_ifs <;>
    simp [readBinaryEvents, readAsciiEvents, List.mem_flatMap, List.mem_append]

theorem digitize_mem_captureAndRead (w : String) (reg : ℕ) (srcs : List String)
    (sr : Bool) (s : String) :
    Ev.writeDigitize s ∈ (captureAndRead w reg srcs sr).1 ↔
      isRunningReg reg = true ∧ s = String.intercalate ", " srcs := by
  rw [captureAndRead_fst]
  cases hrun : isRunningReg reg <;>
    simp [hrun, List.mem_append, digitize_not_mem_read srcs sr w s]

/-- C3: In every capture cycle, the digitize-and-stop command is issued iff
the instrument is observed running (operation-status register bit 3 set) at
the start of the capture; when the instrument is observed already stopped,
no digitize command is ever written, and (for a known binary format) the
channel data is read directly. -/
theorem c3_digitize_iff_running (wavFormat : String) (reg : ℕ)
    (sources : List String) (setRunning : Bool) :
    (Ev.writeDigitize (String.intercalate ", " sources) ∈
        (captureAndRead wavFormat reg sources setRunning).1 ↔
      reg.testBit 3 = true) ∧
    (reg.testBit 3 = false →
      ∀ s, Ev.writeDigitize s ∉ (captureAndRead wavFormat reg sources setRunning).1) ∧
    (reg.testBit 3 = false → wavFormat.take 3 = "WOR" ∨ wavFormat.take 3 = "BYT" →
      (captureAndRead wavFormat reg sources setRunning).1 =
        [Ev.queryFormat, Ev.queryOpReg] ++ readBinaryEvents sources ++
          (if setRunning then [Ev.writeRun] else [])) := by
  refine ⟨?_, ?_, ?_⟩
  · rw [digitize_mem_captureAndRead, isRunningReg_eq_testBit]
    simp
  · intro hstop s
    rw [digitize_mem_captureAndRead, isRunningReg_eq_testBit, hstop]
    simp
  · intro hstop hfmt
    rw [captureAndRead_fst, isRunningReg_eq_testBit, hstop]
    rcases hfmt with h | h <;> simp [h]

/-- C3 witness: with the run bit clear, a WORD capture issues no digitize
command and reads the channel directly. -/
theorem c3_digitize_iff_running_witness :
    Ev.writeDigitize "CHAN1" ∉ (captureAndRead "WORD" 0 ["CHAN1"] true).1 ∧
    (captureAndRead "WORD" 0 ["CHAN1"] true).1 =
      [Ev.queryFormat, Ev.queryOpReg] ++ readBinaryEvents ["CHAN1"] ++ [Ev.writeRun] :=
  ⟨(c3_digitize_iff_running "WORD" 0 ["CHAN1"] true).2.1 (by decide) "CHAN1",
   by
    have h := (c3_digitize_iff_running "WORD" 0 ["CHAN1"] true).2.2 (by decide)
      (Or.inl (by decide))
    simpa using h⟩

/-- C4: Setting the number of averages raises a ValueError-class validation
error iff the requested integer count lies outside [2, 65536] (so 1 and
65537 raise while 2 and 65536 succeed), and an in-range count is written to
the device unchanged — never clamped. -/
theorem c4_num_averages_range (num : ℤ) :
    (isErr (numAveragesSet num).2 = true ↔ ¬(2 ≤ num ∧ num ≤ 65536)) ∧
    (2 ≤ num → num ≤ 65536 →
      numAveragesSet num = ([Ev.writeAcqCount num], Except.ok ())) ∧
    isErr (numAveragesSet 1).2 = true ∧
    isErr (numAveragesSet 65537).2 = true ∧
    isErr (numAveragesSet 2).2 = false ∧
    isErr (numAveragesSet 65536).2 = false := by
  refine ⟨?_, ?_, by decide, by decide, by decide, by decide⟩
  · unfold numAveragesSet
    split_ifs with h <;> simp [isErr, h]
  · intro h1 h2
    unfold numAveragesSet
    rw [if_pos ⟨h1, h2⟩]

/-- C4 witness: the boundary count 2 is accepted and written unchanged. -/
theorem c4_num_averages_range_witness :
    numAveragesSet 2 = ([Ev.writeAcqCount 2], Except.ok ()) :=
  (c4_num_averages_range 2).2.1 (by norm_num) (by norm_num)

/-- C5: While the acquisition type is Averaging, a requested points mode
that is not Normal is overridden: the mode actually written is `NORM`
(after the acq-type query, with no error raised — the model is total); for
any other acquisition type the requested mode is written unchanged.  In
particular requesting `RAW` under `AVER` writes `NORM`. -/
theorem c5_points_mode_override (req acq : String) :
    (acq = "AVER" → req.take 4 ≠ "NORM" →
      pModeEffective req acq = "NORM" ∧
      pModeSet req acq = [Ev.queryAcqType, Ev.writePointsMode "NORM"]) ∧
    (acq ≠ "AVER" →
      pModeEffective req acq = req ∧
      Ev.writePointsMode req ∈ pModeSet req acq) ∧
    pModeEffective "RAW" "AVER" = "NORM" ∧
    pModeSet "RAW" "AVER" = [Ev.queryAcqType, Ev.writePointsMode "NORM"] := by
  refine ⟨?_, ?_, by decide, by decide⟩
  · intro hacq hreq
    have heff : pModeEffective req acq = "NORM" := by
      unfold pModeEffective
      rw [if_pos ⟨hreq, hacq⟩]
    refine ⟨heff, ?_⟩
    unfold pModeSet
    rw [heff, if_neg hreq]
    rfl
  · intro hacq
    have heff : pModeEffective req acq = req := by
      unfold pModeEffective
      rw [if_neg]
      rintro ⟨-, h⟩
      exact hacq h
    refine ⟨heff, ?_⟩
    unfold pModeSet
    rw [heff]
    split_ifs <;> simp

/-- C5 witness: requesting `RAW` while a non-averaging type (`NORM`) is
active writes `RAW` unchanged. -/
theorem c5_points_mode_override_witness :
    pModeEffective "RAW" "NORM" = "RAW" ∧
    Ev.writePointsMode "RAW" ∈ pModeSet "RAW" "NORM" :=
  (c5_points_mode_override "RAW" "NORM").2.1 (by decide)

/-- C7: An explicit ordered channel request is resolved to exactly that
order (never sorted), the sources follow the same order, and the decoded
voltage-matrix columns keep the capture order: requesting [3, 1] yields
capture order [3, 1], sources [CHAN3, CHAN1], and — with channel 3's raw
block [30] listed first and channel 1's [10] second under identity scaling —
the single matrix row [30, 10], not the numeric-sorted [10, 30]. -/
theorem c7_channel_order (chs activeChannels : List ℕ) (hne : chs ≠ []) :
    resolveChannels (ChannelsArg.explicit chs) activeChannels = chs ∧
    sourcesFor (resolveChannels (ChannelsArg.explicit chs) activeChannels) =
      chs.map (fun ch => "CHAN" ++ toString ch) ∧
    resolveChannels (ChannelsArg.explicit [3, 1]) activeChannels = [3, 1] ∧
    sourcesFor [3, 1] = ["CHAN3", "CHAN1"] ∧
    processDataBinary [[30], [10]]
        [[0, 0, 1, 0, 1, 0, 0, 1, 0, 0], [0, 0, 1, 0, 1, 0, 0, 1, 0, 0]] =
      some ([[0]], [[30, 10]]) := by
  have hres : resolveChannels (ChannelsArg.explicit chs) activeChannels = chs := by
    simp only [resolveChannels]
    rw [if_neg hne]
  refine ⟨hres, by rw [hres]; rfl, by simp [resolveChannels], by decide, ?_⟩
  have hok : binaryOk [[(30 : ℚ)], [10]]
      [[0, 0, 1, 0, 1, 0, 0, 1, 0, 0], [0, 0, 1, 0, 1, 0, 0, 1, 0, 0]] := by decide
  rw [processDataBinary, if_pos hok]
  have hn : numSamples [[(0 : ℚ), 0, 1, 0, 1, 0, 0, 1, 0, 0],
      [0, 0, 1, 0, 1, 0, 0, 1, 0, 0]] = 1 := by decide
  norm_num [timeAxisBinary, yMatrixBinary, chanVolts, pField, hn, List.range_succ]

/-- C7 witness: the resolution of the out-of-order request [3, 1]. -/
theorem c7_channel_order_witness :
    resolveChannels (ChannelsArg.explicit [3, 1]) [1, 2] = [3, 1] :=
  (c7_channel_order [3, 1] [1, 2] (by decide)).1

theorem captureAndRead_snd (w : String) (reg : ℕ) (srcs : List String) (sr : Bool) :
    (captureAndRead w reg srcs sr).2 =
      if w.take 3 = "WOR" ∨ w.take 3 = "BYT" ∨ w.take 3 = "ASC" then Except.ok ()
      else Except.error ("Could not capture and read data, waveform format '"
        ++ w.take 3 ++ "' is unknown.") := by
  by_cases hab : w.take 3 = "WOR" ∨ w.take 3 = "BYT"
  · simp only [captureAndRead]
    rw [if_pos hab,
      if_pos (show w.take 3 = "WOR" ∨ w.take 3 = "BYT" ∨ w.take 3 = "ASC" by tauto)]
  · by_cases hasc : w.take 3 = "ASC"
    · simp only [captureAndRead]
      rw [if_neg hab, if_pos hasc,
        if_pos (show w.take 3 = "WOR" ∨ w.take 3 = "BYT" ∨ w.take 3 = "ASC" by tauto)]
    · simp only [captureAndRead]
      rw [if_neg hab, if_neg hasc,
        if_neg (show ¬(w.take 3 = "WOR" ∨ w.take 3 = "BYT" ∨ w.take 3 = "ASC") by
          tauto)]

/-- C6 counterexample: with an unknown waveform format ("FOO") and the
instrument observed running (register value 8, bit 3 set), `capture_and_read`
does raise the ValueError — but only after the digitize command has already
been written, refuting "before any device command (including the digitize
command) has been issued". -/
theorem c6_unknown_format_counterexample :
    isErr (captureAndRead "FOO" 8 ["CHAN1"] true).2 = true ∧
    Ev.writeDigitize "CHAN1" ∈ (captureAndRead "FOO" 8 ["CHAN1"] true).1 := by
  decide

/-- C6 (amended): a capture request with a waveform format outside the three
known families raises the ValueError-class error after the format and
run-state queries — and, if the instrument was observed running, after the
digitize command has been issued — but before any channel source-select,
preamble, or data command. -/
theorem c6_unknown_format_amended (w : String) (reg : ℕ) (srcs : List String)
    (sr : Bool) (h1 : w.take 3 ≠ "WOR") (h2 : w.take 3 ≠ "BYT")
    (h3 : w.take 3 ≠ "ASC") :
    isErr (captureAndRead w reg srcs sr).2 = true ∧
    (captureAndRead w reg srcs sr).1 =
      [Ev.queryFormat, Ev.queryOpReg] ++
        (if reg.testBit 3 then [Ev.writeDigitize (String.intercalate ", " srcs)]
         else []) ∧
    (∀ s, Ev.writeWavSource s ∉ (captureAndRead w reg srcs sr).1) ∧
    Ev.queryPreamble ∉ (captureAndRead w reg srcs sr).1 ∧
    Ev.queryData ∉ (captureAndRead w reg srcs sr).1 := by
  have hfmt : ¬(w.take 3 = "WOR" ∨ w.take 3 = "BYT") := by
    rintro (h | h)
    exacts [h1 h, h2 h]
  have hlog : (captureAndRead w reg srcs sr).1 =
      [Ev.queryFormat, Ev.queryOpReg] ++
        (if reg.testBit 3 then [Ev.writeDigitize (String.intercalate ", " srcs)]
         else []) := by
    rw [captureAndRead_fst, if_neg hfmt, if_neg h3, isRunningReg_eq_testBit]
    simp
  have hor : ¬(w.take 3 = "WOR" ∨ w.take 3 = "BYT" ∨ w.take 3 = "ASC") := by
    rintro (h | h | h)
    exacts [h1 h, h2 h, h3 h]
  refine ⟨?_, hlog, ?_, ?_, ?_⟩
  · rw [captureAndRead_snd, if_neg hor]
    rfl
  · intro s
    rw [hlog]
    cases hbit : reg.testBit 3 <;> simp [hbit]
  · rw [hlog]
    cases hbit : reg.testBit 3 <;> simp [hbit]
  · rw [hlog]
    cases hbit : reg.testBit 3 <;> simp [hbit]

/-- C6 witness: the amended theorem at format "FOO" with the instrument
stopped. -/
theorem c6_unknown_format_amended_witness :
    isErr (captureAndRead "FOO" 0 ["CHAN1"] true).2 = true ∧
    Ev.queryData ∉ (captureAndRead "FOO" 0 ["CHAN1"] true).1 :=
  ⟨(c6_unknown_format_amended "FOO" 0 ["CHAN1"] true (by decide) (by decide)
      (by decide)).1,
   (c6_unknown_format_amended "FOO" 0 ["CHAN1"] true (by decide) (by decide)
      (by decide)).2.2.2.2⟩

/-- C8: `get_trace` with no active channels (channel resolution yields the
empty list) still invokes the binary decoder with zero channels, and the
decode fails at the `preambles[0]` access on the empty preamble list
(modelled as `none`) — the code does not treat the empty resolution as a
no-op capture. -/
theorem c8_empty_channels_decode_fails :
    getTraceBinary ChannelsArg.activeSentinel [] (fun _ => []) (fun _ => []) =
      none ∧
    processDataBinary [] [] = none := by
  constructor <;> decide

/-- C9: setting the acquisition type to the malformed token "AVERxyz"
returns normally (the `except ValueError` branch constructs but never raises
the error) after having already written the `:ACQuire:TYPE AVER` device
command — contradicting the setter's own docstring, which promises a
ValueError when the suffix cannot be converted to an integer. -/
theorem c9_malformed_aver_silently_accepted :
    acqTypeSet "AVERxyz" = ([Ev.writeAcqType "AVER"], Except.ok ()) ∧
    isErr (acqTypeSet "AVERxyz").2 = false := by
  exact ⟨rfl, rfl⟩

/-- C10: for every strictly negative point count the `num_points` setter
returns normally — the `ValueError` in the final `else` branch is
constructed but never raised — and issues no device command at all, leaving
the instrument's point-count setting unchanged. -/
theorem c10_negative_num_points (np : ℤ) (series acq : String) (hneg : np < 0) :
    numPointsSet np series acq = ([], Except.ok ()) := by
  unfold numPointsSet
  rw [if_neg (by omega : ¬np = 0), if_neg (by omega : ¬0 < np)]

/-- C10 witness: the setter at point count -1. -/
theorem c10_negative_num_points_witness :
    numPointsSet (-1) "2000" "NORM" = ([], Except.ok ()) :=
  c10_negative_num_points (-1) "2000" "NORM" (by norm_num)

end KeyOsc
